import Mathlib

/-!
Shallow embedding of `packages/jest-worker/src/workers/ChildProcessWorker.ts`.

The worker is modelled as a pure state machine: every handler of the source
class becomes a function `Worker → Worker × List Event`, where the event list
records the externally observable actions (spawns, messages sent to the child,
signals, completion-callback invocations) in the order the source performs
them.  Numbers that are JavaScript `number`s holding byte counts are modelled
as `Nat`/`Int`; the configurable idle-memory limit, which may be a fraction,
is modelled as `ℚ`.  JavaScript truthiness tests on numbers (`if (limit)`)
are modelled as `≠ 0` tests.
-/

namespace JestWorker

/-- Worker lifecycle states, from `WorkerStates` in `../types`. -/
inductive WorkerStates where
  | STARTING
  | OK
  | OUT_OF_MEMORY
  | RESTARTING
  | SHUTTING_DOWN
  | SHUT_DOWN
deriving DecidableEq, Repr

/-- Signals the worker sends to its child process. -/
inductive Signal where
  | SIGTERM
  | SIGKILL
deriving DecidableEq, Repr

/-- `SIGNAL_BASE_EXIT_CODE + 15`: exit code of a child killed by SIGTERM. -/
def SIGTERM_EXIT_CODE : Int := 143

/-- `SIGNAL_BASE_EXIT_CODE + 9`: exit code of a child killed by SIGKILL. -/
def SIGKILL_EXIT_CODE : Int := 137

/-- How long to wait after SIGTERM before sending SIGKILL. -/
def SIGKILL_DELAY : Nat := 500

/-- Handle of one incarnation of the child process.  `id` distinguishes
incarnations; `connected` and `killed` mirror the Node `ChildProcess` flags. -/
structure ChildHandle where
  id : Nat
  connected : Bool
  killed : Bool
deriving DecidableEq, Repr

/-- Outbound messages (`ChildMessage` in `../types`): the initialization
message, a call request, and a memory-usage request. -/
inductive ChildMessage where
  | init (shouldSpecializeLoad : Bool) (workerPath : String) (setupArgs : List String)
  | call (payload : String)
  | memUsage
deriving DecidableEq, Repr

/-- Inbound messages (`ParentMessage` in `../types`), dispatched by their
discriminant tag.  `unknown` stands for any tag other than the five
recognized ones and corresponds to the `default` case of `_onMessage`.
For a client error, `extra` models `response[4]`: `none` is a `null`
extra-properties object, and `some t` is an object whose optional `type`
property is `t` (the only property the embedding tracks, since property
copying only ever rewrites the reconstructed error's `type` field here). -/
inductive ParentMessage where
  | ok (result : String)
  | clientError (name message stack : String) (extra : Option (Option String))
  | setupError (typeName message stack : String)
  | custom (payload : String)
  | memUsage (bytes : Nat)
  | unknown (tag : Nat)
deriving DecidableEq, Repr

/-- The error value handed to the completion callback: its final `type`
property, `message` and `stack`. -/
structure WErr where
  typeName : String
  message : String
  stack : String
deriving DecidableEq, Repr

/-- Placeholder for the runtime-generated stack of an `Error` constructed by
the worker itself (`error.stack!`). -/
def syntheticStack : String := "stack"

/-- Observable actions of the worker, in execution order. -/
inductive Event where
  | spawn (childId : Nat)
  | sendToChild (childId : Nat) (msg : ChildMessage)
  | killSignal (childId : Nat) (sig : Signal)
  | scheduleForceKill (childId : Nat) (delay : Nat)
  | onStart
  | processEnd (pendingAtCall : Option ChildMessage) (error : Option WErr) (result : Option String)
  | customMessage (payload : String)
  | resolveMemPromise (promiseId : Nat) (bytes : Nat)
  | rejectMemPromise (promiseId : Nat) (message : String)
  | warn (message : String)
deriving DecidableEq, Repr

/-- The worker's mutable fields, mirroring the private fields of
`ChildProcessWorker` (plus the relevant options and two fresh-name counters
for child handles and memory-usage promises).  `totalmem` is the ambient
`os.totalmem()` value. -/
structure Worker where
  state : WorkerStates
  _child : ChildHandle
  _request : Option ChildMessage
  _retries : Nat
  _stderrBuffer : List String
  _memoryUsagePromise : Option Nat
  _childIdleMemoryUsage : Option Nat
  _childIdleMemoryUsageLimit : Option ℚ
  _memoryUsageCheck : Bool
  maxRetries : Nat
  workerPath : String
  setupArgs : List String
  totalmem : Nat
  nextChildId : Nat
  nextPromiseId : Nat
deriving DecidableEq, Repr

/-- JavaScript truthiness of a nullable number (`null` and `0` are falsy). -/
def qTruthy : Option ℚ → Bool
  | none => false
  | some q => decide (q ≠ 0)

/-- JavaScript truthiness of a nullable byte count. -/
def natTruthy : Option Nat → Bool
  | none => false
  | some n => decide (n ≠ 0)

/-- Does `pat` occur as a contiguous run inside `s`? -/
def substrAux (pat : List Char) : List Char → Bool
  | [] => pat.isEmpty
  | c :: tl => pat.isPrefixOf (c :: tl) || substrAux pat tl

/-- `String.includes` of JavaScript: substring containment. -/
def containsSubstring (s pat : String) : Bool :=
  substrAux pat.toList s.toList

/-- The fixed out-of-memory signatures scanned for by
`_detectOutOfMemoryCrash`. -/
def oomSignature (bufferStr : String) : Bool :=
  containsSubstring bufferStr "heap out of memory" ||
  containsSubstring bufferStr "allocation failure;" ||
  containsSubstring bufferStr "Last few GCs"

/-- `_detectOutOfMemoryCrash`: scan the concatenated stderr buffer; on a
match, move to `OUT_OF_MEMORY` but only out of `OK` or `STARTING`. -/
def _detectOutOfMemoryCrash (w : Worker) : Worker :=
  if oomSignature (String.join w._stderrBuffer) then
    if w.state = WorkerStates.OK ∨ w.state = WorkerStates.STARTING then
      {w with state := WorkerStates.OUT_OF_MEMORY}
    else w
  else w

/-- Modelled from the spec: `WorkerAbstract._shutdown` (the base class is not
part of the sources) performs final shutdown, i.e. moves the worker to the
terminal `ShutDown` state and resolves the exit promise. -/
def _shutdown (w : Worker) : Worker :=
  {w with state := WorkerStates.SHUT_DOWN}

/-- A scheduled forceful-kill timer: the handle captured when the timer was
created and the delay after which it fires. -/
structure KillTimer where
  targetId : Nat
  fireAt : Nat
deriving DecidableEq, Repr

/-- `killChild()`: signal SIGTERM to the current child immediately and
schedule a SIGKILL for the very same handle (`childToKill`) after
`SIGKILL_DELAY`; the timer is returned so a caller may cancel it. -/
def killChild (w : Worker) : Worker × KillTimer × List Event :=
  let childToKill := w._child
  ({w with _child := {w._child with killed := true}},
   ⟨childToKill.id, SIGKILL_DELAY⟩,
   [Event.killSignal childToKill.id Signal.SIGTERM,
    Event.scheduleForceKill childToKill.id SIGKILL_DELAY])

/-- `checkMemoryUsage()`: when a limit is configured, request a usage report
and mark that the next report must be evaluated for restart; otherwise warn. -/
def checkMemoryUsage (w : Worker) : Worker × List Event :=
  if qTruthy w._childIdleMemoryUsageLimit then
    ({w with _memoryUsageCheck := true},
     [Event.sendToChild w._child.id ChildMessage.memUsage])
  else
    (w, [Event.warn "Memory usage of workers can only be checked if a limit is set"])

/-- The completion wrapper installed over `_onProcessEnd` by `send`: clear the
pending request first, then trigger a memory check when a limit is set, the
child is still connected and a request had been pending, and finally invoke
the user callback.  The `processEnd` event records the value of the
pending-request slot at the moment the user callback is invoked. -/
def callProcessEnd (w : Worker) (error : Option WErr) (result : Option String) :
    Worker × List Event :=
  let hasRequest := w._request.isSome
  let w1 := {w with _request := none}
  let we :=
    if qTruthy w1._childIdleMemoryUsageLimit && w1._child.connected && hasRequest then
      checkMemoryUsage w1
    else (w1, [])
  (we.1, we.2 ++ [Event.processEnd we.1._request error result])

/-- The limit-resolution step of `_performRestartIfRequired`: a truthy limit
in `(0,1]` is a fraction of total memory, any other truthy limit an absolute
byte count, both floored; a falsy limit passes through unchanged. -/
def resolveLimitJS (limit : Option ℚ) (totalmem : Nat) : Option ℚ :=
  match limit with
  | none => none
  | some l =>
    if decide (l ≠ 0) && decide (0 < l) && decide (l ≤ 1) then
      some ((⌊(totalmem : ℚ) * l⌋ : ℤ) : ℚ)
    else if decide (l ≠ 0) then
      some ((⌊l⌋ : ℤ) : ℚ)
    else some l

/-- `_performRestartIfRequired`: when a check was requested, resolve the
limit and, if the last reported idle usage strictly exceeds it (with both
sides truthy), move to `RESTARTING` and kill the child.  The timer handle
returned by `killChild` is discarded, exactly as in the source. -/
def _performRestartIfRequired (w : Worker) : Worker × List Event :=
  if w._memoryUsageCheck then
    let w1 := {w with _memoryUsageCheck := false}
    let limit := resolveLimitJS w1._childIdleMemoryUsageLimit w1.totalmem
    if qTruthy limit && natTruthy w1._childIdleMemoryUsage &&
       (match limit, w1._childIdleMemoryUsage with
        | some l, some u => decide ((u : ℚ) > l)
        | _, _ => false) then
      let w2 := {w1 with state := WorkerStates.RESTARTING}
      let kc := killChild w2
      (kc.1, kc.2.2)
    else (w1, [])
  else (w, [])

/-- `_onMessage`, dispatched on the discriminant tag.  The `default` case of
the source throws a `TypeError`; the throw is modelled by `Except.error`,
which aborts the handler with no state change and is caught nowhere in the
component. -/
def _onMessage (w : Worker) (response : ParentMessage) :
    Except String (Worker × List Event) :=
  match response with
  | ParentMessage.ok result =>
    Except.ok (callProcessEnd w none (some result))
  | ParentMessage.clientError name message stack extra =>
    match extra with
    | none => Except.ok (callProcessEnd w none none)
    | some typeProp =>
      Except.ok (callProcessEnd w (some ⟨typeProp.getD name, message, stack⟩) none)
  | ParentMessage.setupError typeName message stack =>
    Except.ok (callProcessEnd w
      (some ⟨typeName, "Error when calling setup: " ++ message, stack⟩) none)
  | ParentMessage.custom payload =>
    Except.ok (w, [Event.customMessage payload])
  | ParentMessage.memUsage bytes =>
    let w1 := {w with _childIdleMemoryUsage := some bytes}
    let pr : Worker × List Event :=
      match w1._memoryUsagePromise with
      | some p => ({w1 with _memoryUsagePromise := none},
                   [Event.resolveMemPromise p bytes])
      | none => (w1, [])
    let rr := _performRestartIfRequired pr.1
    Except.ok (rr.1, pr.2 ++ rr.2)
  | ParentMessage.unknown tag =>
    Except.error ("Unexpected response from worker: " ++ toString tag)

/-- Unwraps a successful handler result; the fallback is unreachable on the
inputs the worker feeds it (a client-error reply never hits the `default`
case of `_onMessage`). -/
def runOk (r : Except String (Worker × List Event)) (fallback : Worker × List Event) :
    Worker × List Event :=
  match r with
  | Except.ok x => x
  | Except.error _ => fallback

/-- `initialize()`: a no-op in the three terminal states; otherwise SIGKILL a
still-connected previous child, clear the stderr buffer, spawn a fresh child,
send it the initialization message, increment the retry counter and — if it
now exceeds `maxRetries` — emulate a client-error reply and clear the pending
request; finally the state becomes `OK`. -/
def initializeWorker (w : Worker) : Worker × List Event :=
  if w.state = WorkerStates.OUT_OF_MEMORY ∨ w.state = WorkerStates.SHUTTING_DOWN ∨
     w.state = WorkerStates.SHUT_DOWN then
    (w, [])
  else
    let w1 := if w._child.connected then
        {w with _child := {w._child with killed := true}}
      else w
    let evs0 := if w._child.connected then
        [Event.killSignal w._child.id Signal.SIGKILL]
      else []
    let w2 := {w1 with state := WorkerStates.STARTING, _stderrBuffer := []}
    let newChild : ChildHandle := ⟨w2.nextChildId, true, false⟩
    let w3 := {w2 with _child := newChild, nextChildId := w2.nextChildId + 1}
    let evs1 := [Event.spawn newChild.id,
                 Event.sendToChild newChild.id
                   (ChildMessage.init false w3.workerPath w3.setupArgs)]
    let w4 := {w3 with _retries := w3._retries + 1}
    let msg := "Jest worker encountered " ++ toString w4._retries ++
      " child process exceptions, exceeding retry limit"
    let emulated := runOk (_onMessage w4 (ParentMessage.clientError "Error" msg
      syntheticStack (some (some "WorkerError")))) (w4, [])
    let w5 := if w4._retries > w4.maxRetries then
        {emulated.1 with _request := none}
      else w4
    let evs2 := if w4._retries > w4.maxRetries then emulated.2 else []
    let w6 := {w5 with state := WorkerStates.OK}
    (w6, evs0 ++ evs1 ++ evs2)

/-- `_onExit`: re-run OOM detection; fail the request and shut down on OOM
with a non-zero code; respawn (and resend a pending request to the new
child) on an abnormal, non-self-inflicted exit outside `SHUTTING_DOWN` or on
an explicit `RESTARTING`; otherwise shut down.  `exitCode` is `number|null`,
modelled as `Option Int`. -/
def _onExit (w0 : Worker) (exitCode : Option Int) : Worker × List Event :=
  let w := _detectOutOfMemoryCrash w0
  if exitCode ≠ some 0 ∧ w.state = WorkerStates.OUT_OF_MEMORY then
    let ce := callProcessEnd w
      (some ⟨"Error", "Jest worker ran out of memory and crashed", syntheticStack⟩) none
    (_shutdown ce.1, ce.2)
  else if (exitCode ≠ some 0 ∧ exitCode ≠ none ∧ exitCode ≠ some SIGTERM_EXIT_CODE ∧
           exitCode ≠ some SIGKILL_EXIT_CODE ∧ w.state ≠ WorkerStates.SHUTTING_DOWN) ∨
          w.state = WorkerStates.RESTARTING then
    let w1 := {w with state := WorkerStates.RESTARTING}
    let iw := initializeWorker w1
    match iw.1._request with
    | some req => (iw.1, iw.2 ++ [Event.sendToChild iw.1._child.id req])
    | none => iw
  else
    (_shutdown w, [])

/-- `_onDisconnect`: re-run OOM detection; on OOM kill the child and shut
down (no respawn from a disconnect alone). -/
def _onDisconnect (w : Worker) : Worker × List Event :=
  let w1 := _detectOutOfMemoryCrash w
  if w1.state = WorkerStates.OUT_OF_MEMORY then
    let kc := killChild w1
    (_shutdown kc.1, kc.2.2)
  else (w1, [])

/-- `stderrDataHandler`: buffer the chunk, re-run OOM detection, and on OOM
kill the child and shut down. -/
def stderrDataHandler (w : Worker) (chunk : String) : Worker × List Event :=
  let w1 := {w with _stderrBuffer := w._stderrBuffer ++ [chunk]}
  let w2 := _detectOutOfMemoryCrash w1
  if w2.state = WorkerStates.OUT_OF_MEMORY then
    let kc := killChild w2
    (_shutdown kc.1, kc.2.2)
  else (w2, [])

/-- `send(request, ...)`: reset the stderr buffer, invoke `onStart`, install
the completion wrapper (modelled by `callProcessEnd`), store the request,
reset the retry counter to zero and dispatch the request to the child. -/
def send (w : Worker) (request : ChildMessage) : Worker × List Event :=
  let w1 := {w with _stderrBuffer := []}
  let w2 := {w1 with _request := some request, _retries := 0}
  (w2, [Event.onStart, Event.sendToChild w2._child.id request])

/-- `getMemoryUsage()`: return the outstanding report future if there is one;
otherwise create one (identified by a fresh promise id), fail it immediately
when the child is not connected (sending nothing), else send a memory-usage
request to the child. -/
def getMemoryUsage (w : Worker) : Worker × Nat × List Event :=
  match w._memoryUsagePromise with
  | some p => (w, p, [])
  | none =>
    let p := w.nextPromiseId
    let w1 := {w with _memoryUsagePromise := some p, nextPromiseId := w.nextPromiseId + 1}
    if !w1._child.connected then
      ({w1 with _memoryUsagePromise := none}, p,
       [Event.rejectMemPromise p "Child process is not running."])
    else
      (w1, p, [Event.sendToChild w1._child.id ChildMessage.memUsage])

/-- `forceExit()`: move to `SHUTTING_DOWN` and kill the child; the returned
timer is the one the exit promise will cancel. -/
def forceExit (w : Worker) : Worker × KillTimer × List Event :=
  let w1 := {w with state := WorkerStates.SHUTTING_DOWN}
  killChild w1

/-- Model of `setTimeout`/`clearTimeout`: a scheduled callback runs at
`fireAt` unless the timer is cleared strictly before that. -/
def setTimeoutFires (fireAt : Nat) (clearedAt : Option Nat) : Bool :=
  match clearedAt with
  | none => true
  | some c => decide (fireAt ≤ c)

/-- Model of the process-signal primitive: a signal reaches the process only
while it has not exited (`ChildProcess.kill` on an exited process delivers
nothing). -/
def processAliveAt (exitTime : Option Nat) (t : Nat) : Bool :=
  match exitTime with
  | none => true
  | some e => decide (t < e)

/-- The forceful signals actually delivered by a scheduled kill timer, as
`(time, child id)` pairs, given the child's exit time and the time (if any)
at which the timer was cleared. -/
def deliveredForceful (tm : KillTimer) (exitTime clearedAt : Option Nat) :
    List (Nat × Nat) :=
  if setTimeoutFires tm.fireAt clearedAt && processAliveAt exitTime tm.fireAt then
    [(tm.fireAt, tm.targetId)]
  else []

/-- The runtime marks the IPC handle disconnected once the child process has
exited; the `exit` listener observes the handle in that condition. -/
def markExited (w : Worker) : Worker :=
  {w with _child := {w._child with connected := false}}

/-- One crash of the child with the given exit code, as observed by the
worker: the handle disconnects, then `_onExit` runs. -/
def crashStep (w : Worker) (code : Int) : Worker × List Event :=
  _onExit (markExited w) (some code)

/-- Is this event a spawn of a new child? -/
def Event.isSpawn : Event → Bool
  | Event.spawn _ => true
  | _ => false

/-- Is this event an invocation of the completion callback? -/
def Event.isProcessEnd : Event → Bool
  | Event.processEnd _ _ _ => true
  | _ => false

/-- Number of child spawns recorded in a trace. -/
def spawnCount (evs : List Event) : Nat :=
  (evs.filter Event.isSpawn).length

/-- Number of times a given message is sent to a child in a trace. -/
def sendCountOf (evs : List Event) (msg : ChildMessage) : Nat :=
  (evs.filter fun e =>
    match e with
    | Event.sendToChild _ m => decide (m = msg)
    | _ => false).length

/-- The completion-callback invocations recorded in a trace. -/
def processEnds (evs : List Event) : List Event :=
  evs.filter Event.isProcessEnd

/-- Number of delivered kill signals of a given kind in a trace. -/
def killSigCount (evs : List Event) (sig : Signal) : Nat :=
  (evs.filter fun e =>
    match e with
    | Event.killSignal _ s => decide (s = sig)
    | _ => false).length

/-- A fully concrete worker used to exercise the model: state `OK`, child
incarnation 0 connected, request `call "x"` pending, retry counter reset by
`send`, retry limit 3, total system memory 10⁹ bytes, no idle-memory limit. -/
def wBase : Worker where
  state := WorkerStates.OK
  _child := ⟨0, true, false⟩
  _request := some (ChildMessage.call "x")
  _retries := 0
  _stderrBuffer := []
  _memoryUsagePromise := none
  _childIdleMemoryUsage := none
  _childIdleMemoryUsageLimit := none
  _memoryUsageCheck := false
  maxRetries := 3
  workerPath := "wp"
  setupArgs := []
  totalmem := 1000000000
  nextChildId := 1
  nextPromiseId := 0

/-- The error synthesized by `initialize()` when the retry counter exceeds
the maximum: reconstructed through the client-error path, its final `type` is
`WorkerError` (copied from the extra-properties object). -/
def retryExceededErr (n : Nat) : WErr :=
  ⟨"WorkerError",
   "Jest worker encountered " ++ toString n ++
     " child process exceptions, exceeding retry limit",
   syntheticStack⟩

/-- Runs `_onMessage` and unwraps the (always successful on recognized tags)
result. -/
def runMsg (w : Worker) (m : ParentMessage) : Worker × List Event :=
  runOk (_onMessage w m) (w, [])

/-- The spec scenario for the retry storm (retry limit 3, request `call "x"`
pending): first crash with exit code 1. -/
def c1r1 : Worker × List Event := crashStep wBase 1

/-- Second consecutive crash. -/
def c1r2 : Worker × List Event := crashStep c1r1.1 1

/-- Third consecutive crash. -/
def c1r3 : Worker × List Event := crashStep c1r2.1 1

/-- Fourth consecutive crash: the retry counter exceeds the maximum. -/
def c1r4 : Worker × List Event := crashStep c1r3.1 1

/-- Worker with an idle-memory-limit check requested and no pending request,
as after a completed request triggered `checkMemoryUsage()`. -/
def wC2 : Worker :=
  {wBase with _request := none, _memoryUsageCheck := true,
              _childIdleMemoryUsageLimit := some 1000}

/-- The memory-restart cycle at `wC2`: usage report of 5000 bytes against the
resolved limit 1000. -/
def c2run : Worker × List Event := runMsg wC2 (ParentMessage.memUsage 5000)

/-- The exit (SIGTERM-induced, code 143) following the memory-restart kill. -/
def c2exit : Worker × List Event := _onExit (markExited c2run.1) (some 143)

/-- A worker whose child exited with an OOM signature buffered on stderr. -/
def c3w : Worker := markExited {wBase with _stderrBuffer := ["heap out of memory"]}

/-- A worker whose child exited abnormally with an OOM signature buffered
while its request was pending. -/
def c1x : Worker := markExited {wBase with _stderrBuffer := ["Last few GCs"]}

/-- A worker in the `Restarting` state with an OOM signature buffered. -/
def c3x : Worker :=
  {wBase with state := WorkerStates.RESTARTING,
              _stderrBuffer := ["heap out of memory"]}

/-- The resolved idle-memory limit of the claim, as an integer byte count:
fractional limits in `(0,1]` resolve against total memory, others are
floored absolute byte counts. -/
def resolvedLimitZ (l : ℚ) (tm : Nat) : ℤ :=
  if 0 < l ∧ l ≤ 1 then ⌊(tm : ℚ) * l⌋ else ⌊l⌋

/-- Worker with a configured idle-memory limit, a requested check and a
reported idle usage, ready for `_performRestartIfRequired`. -/
def wMem (limit : ℚ) (tm usage : Nat) : Worker :=
  {wBase with _request := none, _memoryUsageCheck := true,
              _childIdleMemoryUsageLimit := some limit,
              _childIdleMemoryUsage := some usage,
              totalmem := tm}

/-- Helper: detection is the identity when no signature is in the buffer. -/
lemma detect_of_no_sig (w : Worker)
    (h : oomSignature (String.join w._stderrBuffer) = false) :
    _detectOutOfMemoryCrash w = w := by
  unfold _detectOutOfMemoryCrash
  rw [h]
  rfl

/-- Helper: detection never changes a state other than `OK`/`STARTING`. -/
lemma detect_of_state_frozen (w : Worker)
    (h1 : w.state ≠ WorkerStates.OK) (h2 : w.state ≠ WorkerStates.STARTING) :
    _detectOutOfMemoryCrash w = w := by
  unfold _detectOutOfMemoryCrash
  split
  · rw [if_neg]
    rintro (h | h) <;> [exact h1 h; exact h2 h]
  · rfl

/-- Helper: the completion wrapper in closed form — the request slot is
cleared, then, exactly when a limit is configured, the child is connected
and a request was pending, a memory check is requested; the user callback
runs last and observes an empty request slot. -/
lemma callProcessEnd_eq (w : Worker) (error : Option WErr) (result : Option String) :
    callProcessEnd w error result =
      if qTruthy w._childIdleMemoryUsageLimit && w._child.connected && w._request.isSome then
        ({w with _request := none, _memoryUsageCheck := true},
         [Event.sendToChild w._child.id ChildMessage.memUsage,
          Event.processEnd none error result])
      else
        ({w with _request := none}, [Event.processEnd none error result]) := by
  unfold callProcessEnd checkMemoryUsage
  dsimp only
  split
  · rename_i h
    have hq : qTruthy w._childIdleMemoryUsageLimit = true := by
      simp only [Bool.and_eq_true] at h
      exact h.1.1
    rw [if_pos hq]
    rfl
  · rfl

/-- Helper: `_performRestartIfRequired` never touches the memory-usage
promise. -/
lemma performRestart_promise (w : Worker) :
    (_performRestartIfRequired w).1._memoryUsagePromise = w._memoryUsagePromise := by
  unfold _performRestartIfRequired killChild
  dsimp only
  split
  · split <;> rfl
  · rfl

/-- Helper: `_onMessage` on a client error with a non-null extra object is
precisely the completion wrapper on the reconstructed error. -/
lemma onMessage_clientError_some (w : Worker) (name message stack : String)
    (t : Option String) :
    _onMessage w (ParentMessage.clientError name message stack (some t)) =
      Except.ok (callProcessEnd w (some ⟨t.getD name, message, stack⟩) none) := rfl

/-- Helper: the respawned worker's child handle is always the freshly forked
one, whatever the retry counter says. -/
lemma initializeWorker_child (w : Worker)
    (hterm : ¬(w.state = WorkerStates.OUT_OF_MEMORY ∨ w.state = WorkerStates.SHUTTING_DOWN ∨
               w.state = WorkerStates.SHUT_DOWN)) :
    (initializeWorker w).1._child = ⟨w.nextChildId, true, false⟩ := by
  unfold initializeWorker
  rw [if_neg hterm]
  dsimp only
  rw [onMessage_clientError_some, callProcessEnd_eq]
  dsimp only [runOk]
  split <;> split <;> first
  | rfl
  | (split <;> rfl)

/-- C8: `initialize()` is a no-op in the terminal states `OutOfMemory`,
`ShuttingDown` and `ShutDown`: the worker is returned unchanged, no child is
spawned and no event is emitted. -/
theorem c8_terminal_states_no_op (w : Worker)
    (h : w.state = WorkerStates.OUT_OF_MEMORY ∨ w.state = WorkerStates.SHUTTING_DOWN ∨
         w.state = WorkerStates.SHUT_DOWN) :
    initializeWorker w = (w, []) := by
  unfold initializeWorker
  rw [if_pos h]

/-- Witness for C8 at a concrete shut-down worker. -/
theorem c8_terminal_states_no_op_witness :
    initializeWorker {wBase with state := WorkerStates.SHUT_DOWN} =
      ({wBase with state := WorkerStates.SHUT_DOWN}, []) :=
  c8_terminal_states_no_op _ (Or.inr (Or.inr rfl))

/-- C9: an inbound message whose discriminant tag is not one of the five
recognized tags hits the `default` case of `_onMessage`, which raises a fatal
`TypeError`; the handler aborts with the error and produces no successor
state, so the worker cannot recover from it. -/
theorem c9_protocol_error (w : Worker) (tag : Nat) :
    _onMessage w (ParentMessage.unknown tag) =
      Except.error ("Unexpected response from worker: " ++ toString tag) := rfl

/-- C6: `killChild()` delivers the graceful signal to the current child
immediately and schedules the forceful signal for that same handle after the
fixed 500-unit delay; when no exit happens within the delay the forceful
signal is delivered exactly once, and when the child exits within the delay
the forceful signal is never delivered. -/
theorem c6_kill_escalation (w : Worker) (exitTime : Option Nat) :
    (killChild w).2.2 = [Event.killSignal w._child.id Signal.SIGTERM,
                         Event.scheduleForceKill w._child.id SIGKILL_DELAY] ∧
    (killChild w).2.1 = ⟨w._child.id, SIGKILL_DELAY⟩ ∧
    ((∀ t, exitTime = some t → SIGKILL_DELAY < t) →
      deliveredForceful (killChild w).2.1 exitTime none =
        [(SIGKILL_DELAY, w._child.id)]) ∧
    (∀ t, exitTime = some t → t ≤ SIGKILL_DELAY →
      deliveredForceful (killChild w).2.1 exitTime none = []) := by
  unfold killChild deliveredForceful setTimeoutFires processAliveAt
  dsimp only
  refine ⟨rfl, rfl, ?_, ?_⟩
  · intro h
    cases exitTime with
    | none => rfl
    | some t =>
      have ht := h t rfl
      simp [ht]
  · intro t ht hle
    subst ht
    have hd : decide (SIGKILL_DELAY < t) = false := decide_eq_false (Nat.not_lt.mpr hle)
    simp [hd]

/-- Witness for C6: exit at time 600 lets the forceful signal through once;
exit at time 100 suppresses it. -/
theorem c6_kill_escalation_witness :
    deliveredForceful (killChild wBase).2.1 (some 600) none =
      [(SIGKILL_DELAY, wBase._child.id)] ∧
    deliveredForceful (killChild wBase).2.1 (some 100) none = [] :=
  ⟨(c6_kill_escalation wBase (some 600)).2.2.1 (by intro t ht; cases ht; decide),
   (c6_kill_escalation wBase (some 100)).2.2.2 100 rfl (by decide)⟩

/-- C10: the forceful-kill timer scheduled by `killChild()` is bound to the
handle current at the time of the call (`childToKill`); a worker respawned
before the delay elapses gets a child with a different handle, and every
forceful signal the timer can deliver targets the old handle only. -/
theorem c10_forceful_bound_old_handle (w : Worker) (exitTime clearedAt : Option Nat)
    (hid : w._child.id < w.nextChildId)
    (hterm : ¬(w.state = WorkerStates.OUT_OF_MEMORY ∨ w.state = WorkerStates.SHUTTING_DOWN ∨
               w.state = WorkerStates.SHUT_DOWN)) :
    (killChild w).2.1.targetId = w._child.id ∧
    (initializeWorker (markExited (killChild w).1)).1._child.id ≠ w._child.id ∧
    (∀ p ∈ deliveredForceful (killChild w).2.1 exitTime clearedAt,
      p.2 = w._child.id) := by
  refine ⟨rfl, ?_, ?_⟩
  · rw [initializeWorker_child (markExited (killChild w).1) hterm]
    dsimp only [markExited, killChild]
    exact (ne_of_lt hid).symm
  · intro p hp
    unfold deliveredForceful at hp
    split at hp
    · simp at hp
      subst hp
      rfl
    · simp at hp

/-- Witness for C10 at the concrete base worker. -/
theorem c10_forceful_bound_old_handle_witness :
    (killChild wBase).2.1.targetId = wBase._child.id ∧
    (initializeWorker (markExited (killChild wBase).1)).1._child.id ≠ wBase._child.id ∧
    (∀ p ∈ deliveredForceful (killChild wBase).2.1 none none,
      p.2 = wBase._child.id) :=
  c10_forceful_bound_old_handle wBase none none (by decide) (by decide)

/-- C7: `getMemoryUsage()` keeps a single in-flight report future: a second
call while one is outstanding returns the very same future without sending
anything; when the child is not connected the future fails immediately and no
message is sent; when the child replies with a usage report the outstanding
future is resolved with the reported bytes. -/
theorem c7_memory_usage_future (w : Worker) :
    (w._memoryUsagePromise = none → w._child.connected = true →
      (getMemoryUsage w).2.2 = [Event.sendToChild w._child.id ChildMessage.memUsage] ∧
      (getMemoryUsage (getMemoryUsage w).1).2.1 = (getMemoryUsage w).2.1 ∧
      (getMemoryUsage (getMemoryUsage w).1).1 = (getMemoryUsage w).1 ∧
      (getMemoryUsage (getMemoryUsage w).1).2.2 = []) ∧
    (w._memoryUsagePromise = none → w._child.connected = false →
      (getMemoryUsage w).2.2 =
        [Event.rejectMemPromise w.nextPromiseId "Child process is not running."] ∧
      sendCountOf (getMemoryUsage w).2.2 ChildMessage.memUsage = 0 ∧
      (getMemoryUsage w).1._memoryUsagePromise = none) ∧
    (∀ p bytes, w._memoryUsagePromise = some p →
      ∃ w' evs, _onMessage w (ParentMessage.memUsage bytes) = Except.ok (w', evs) ∧
        Event.resolveMemPromise p bytes ∈ evs ∧
        w'._memoryUsagePromise = none) := by
  refine ⟨?_, ?_, ?_⟩
  · intro hp hc
    unfold getMemoryUsage
    rw [hp]
    simp only [hc]
    refine ⟨rfl, ?_, ?_, ?_⟩ <;> rfl
  · intro hp hc
    unfold getMemoryUsage
    rw [hp]
    simp only [hc]
    refine ⟨rfl, rfl, rfl⟩
  · intro p bytes hp
    unfold _onMessage
    rw [hp]
    refine ⟨_, _, rfl, List.mem_append_left _ (List.mem_singleton.mpr rfl), ?_⟩
    rw [performRestart_promise]

/-- Witness for C7: all three branches at concrete workers. -/
theorem c7_memory_usage_future_witness :
    ((getMemoryUsage wBase).2.2 =
        [Event.sendToChild wBase._child.id ChildMessage.memUsage] ∧
      (getMemoryUsage (getMemoryUsage wBase).1).2.1 = (getMemoryUsage wBase).2.1 ∧
      (getMemoryUsage (getMemoryUsage wBase).1).1 = (getMemoryUsage wBase).1 ∧
      (getMemoryUsage (getMemoryUsage wBase).1).2.2 = []) ∧
    ((getMemoryUsage (markExited wBase)).2.2 =
        [Event.rejectMemPromise (markExited wBase).nextPromiseId
          "Child process is not running."] ∧
      sendCountOf (getMemoryUsage (markExited wBase)).2.2 ChildMessage.memUsage = 0 ∧
      (getMemoryUsage (markExited wBase)).1._memoryUsagePromise = none) ∧
    (∃ w' evs,
      _onMessage {wBase with _memoryUsagePromise := some 7}
          (ParentMessage.memUsage 1234) = Except.ok (w', evs) ∧
        Event.resolveMemPromise 7 1234 ∈ evs ∧
        w'._memoryUsagePromise = none) :=
  ⟨(c7_memory_usage_future wBase).1 rfl rfl,
   (c7_memory_usage_future (markExited wBase)).2.1 rfl rfl,
   (c7_memory_usage_future {wBase with _memoryUsagePromise := some 7}).2.2 7 1234 rfl⟩

/-- Helper: closed form of a respawn whose retry counter stays within the
maximum: one fresh child is forked and sent the initialization message and
nothing else happens. -/
lemma initializeWorker_eq_le (w : Worker)
    (hterm : ¬(w.state = WorkerStates.OUT_OF_MEMORY ∨ w.state = WorkerStates.SHUTTING_DOWN ∨
               w.state = WorkerStates.SHUT_DOWN))
    (hconn : w._child.connected = false)
    (hret : w._retries + 1 ≤ w.maxRetries) :
    initializeWorker w =
      ({w with state := WorkerStates.OK, _stderrBuffer := [],
               _child := ⟨w.nextChildId, true, false⟩,
               nextChildId := w.nextChildId + 1,
               _retries := w._retries + 1},
       [Event.spawn w.nextChildId,
        Event.sendToChild w.nextChildId
          (ChildMessage.init false w.workerPath w.setupArgs)]) := by
  unfold initializeWorker
  rw [if_neg hterm]
  simp only [hconn, Bool.false_eq_true, if_false]
  split
  · rename_i h
    exact absurd h (Nat.not_lt.mpr hret)
  · rfl

/-- Helper: closed form of a respawn that pushes the retry counter past the
maximum: the fresh child is forked and initialized, then a client error of
type `WorkerError` is emulated through the completion wrapper (requesting a
memory check when a limit is configured and a request was pending) and the
pending request is cleared. -/
lemma initializeWorker_eq_gt (w : Worker)
    (hterm : ¬(w.state = WorkerStates.OUT_OF_MEMORY ∨ w.state = WorkerStates.SHUTTING_DOWN ∨
               w.state = WorkerStates.SHUT_DOWN))
    (hconn : w._child.connected = false)
    (hret : w.maxRetries < w._retries + 1) :
    initializeWorker w =
      (if qTruthy w._childIdleMemoryUsageLimit && w._request.isSome then
        ({w with state := WorkerStates.OK, _stderrBuffer := [],
                 _child := ⟨w.nextChildId, true, false⟩,
                 nextChildId := w.nextChildId + 1,
                 _retries := w._retries + 1,
                 _request := none,
                 _memoryUsageCheck := true},
         [Event.spawn w.nextChildId,
          Event.sendToChild w.nextChildId
            (ChildMessage.init false w.workerPath w.setupArgs),
          Event.sendToChild w.nextChildId ChildMessage.memUsage,
          Event.processEnd none (some (retryExceededErr (w._retries + 1))) none])
      else
        ({w with state := WorkerStates.OK, _stderrBuffer := [],
                 _child := ⟨w.nextChildId, true, false⟩,
                 nextChildId := w.nextChildId + 1,
                 _retries := w._retries + 1,
                 _request := none},
         [Event.spawn w.nextChildId,
          Event.sendToChild w.nextChildId
            (ChildMessage.init false w.workerPath w.setupArgs),
          Event.processEnd none (some (retryExceededErr (w._retries + 1))) none])) := by
  unfold initializeWorker
  rw [if_neg hterm]
  dsimp only
  rw [onMessage_clientError_some, callProcessEnd_eq]
  dsimp only [runOk]
  simp only [hconn, Bool.false_eq_true, if_false, Bool.and_true]
  rw [if_pos hret, if_pos hret]
  unfold retryExceededErr
  split <;> rfl

/-- Helper: the limit-resolution step agrees with the spec formula on every
truthy (configured) limit. -/
lemma resolveLimitJS_eq (l : ℚ) (tm : Nat) (hl : l ≠ 0) :
    resolveLimitJS (some l) tm = some ((resolvedLimitZ l tm : ℤ) : ℚ) := by
  unfold resolveLimitJS resolvedLimitZ
  dsimp only
  by_cases h : 0 < l ∧ l ≤ 1
  · rw [if_pos h,
      if_pos (show (decide (l ≠ 0) && decide (0 < l) && decide (l ≤ 1)) = true by
        simp [hl, h.1, h.2])]
  · rw [if_neg h]
    rw [if_neg (show ¬(decide (l ≠ 0) && decide (0 < l) && decide (l ≤ 1)) = true by
      intro hc
      simp only [Bool.and_eq_true, decide_eq_true_eq] at hc
      exact h ⟨hc.1.2, hc.2⟩)]
    rw [if_pos (show decide (l ≠ 0) = true by simp [hl])]

/-- Helper: when the check flag is set, a configured limit is present and a
usage was reported, the restart check either kills the child (state
`RESTARTING`) or does nothing, according to the truthy-and-exceeded guard. -/
lemma performRestart_cases (w : Worker) (L : ℚ) (U : Nat)
    (hchk : w._memoryUsageCheck = true)
    (hL : w._childIdleMemoryUsageLimit = some L) (hL0 : L ≠ 0)
    (hU2 : w._childIdleMemoryUsage = some U) :
    _performRestartIfRequired w =
      (if resolvedLimitZ L w.totalmem ≠ 0 ∧ U ≠ 0 ∧
          resolvedLimitZ L w.totalmem < (U : ℤ) then
        ({w with _memoryUsageCheck := false, state := WorkerStates.RESTARTING,
                 _child := {w._child with killed := true}},
         [Event.killSignal w._child.id Signal.SIGTERM,
          Event.scheduleForceKill w._child.id SIGKILL_DELAY])
      else ({w with _memoryUsageCheck := false}, [])) := by
  unfold _performRestartIfRequired killChild
  rw [if_pos hchk]
  dsimp only
  rw [hL, resolveLimitJS_eq L w.totalmem hL0, hU2]
  dsimp only [qTruthy, natTruthy]
  by_cases h : resolvedLimitZ L w.totalmem ≠ 0 ∧ U ≠ 0 ∧
      resolvedLimitZ L w.totalmem < (U : ℤ)
  · rw [if_pos h]
    obtain ⟨h1, h2, h3⟩ := h
    simp only [decide_eq_true (Int.cast_ne_zero.mpr h1), decide_eq_true h2,
      decide_eq_true (show ((U : ℕ) : ℚ) > ((resolvedLimitZ L w.totalmem : ℤ) : ℚ) by
        exact_mod_cast h3),
      Bool.and_self, if_true]
  · rw [if_neg h]
    rw [if_neg (show ¬(decide (((resolvedLimitZ L w.totalmem : ℤ) : ℚ) ≠ 0) &&
        decide (U ≠ 0) &&
        decide (((U : ℕ) : ℚ) > ((resolvedLimitZ L w.totalmem : ℤ) : ℚ))) = true by
      intro hc
      simp only [Bool.and_eq_true, decide_eq_true_eq] at hc
      exact h ⟨Int.cast_ne_zero.mp hc.1.1, hc.1.2, by exact_mod_cast hc.2⟩)]

/-- Helper: closed form of the memory-restart kill at an exceeding report. -/
lemma performRestart_restarts (w : Worker) (L : ℚ) (U : Nat)
    (hchk : w._memoryUsageCheck = true)
    (hL : w._childIdleMemoryUsageLimit = some L) (hL0 : L ≠ 0)
    (hU2 : w._childIdleMemoryUsage = some U)
    (hR : resolvedLimitZ L w.totalmem ≠ 0) (hU : U ≠ 0)
    (hgt : resolvedLimitZ L w.totalmem < (U : ℤ)) :
    _performRestartIfRequired w =
      ({w with _memoryUsageCheck := false, state := WorkerStates.RESTARTING,
               _child := {w._child with killed := true}},
       [Event.killSignal w._child.id Signal.SIGTERM,
        Event.scheduleForceKill w._child.id SIGKILL_DELAY]) := by
  rw [performRestart_cases w L U hchk hL hL0 hU2, if_pos ⟨hR, hU, hgt⟩]

/-- Helper: an exit observed in the `RESTARTING` state (with no pending
request and the retry budget not yet exceeded) respawns once, whatever the
exit code and whatever is in the stderr buffer. -/
lemma onExit_restarting (w : Worker) (code : Option Int)
    (hst : w.state = WorkerStates.RESTARTING)
    (hconn : w._child.connected = false)
    (hret : w._retries + 1 ≤ w.maxRetries)
    (hreq : w._request = none) :
    _onExit w code =
      ({w with state := WorkerStates.OK, _stderrBuffer := [],
               _child := ⟨w.nextChildId, true, false⟩,
               nextChildId := w.nextChildId + 1,
               _retries := w._retries + 1},
       [Event.spawn w.nextChildId,
        Event.sendToChild w.nextChildId
          (ChildMessage.init false w.workerPath w.setupArgs)]) := by
  have hd : _detectOutOfMemoryCrash w = w :=
    detect_of_state_frozen w (by rw [hst]; decide) (by rw [hst]; decide)
  unfold _onExit
  rw [hd]
  try dsimp only
  rw [if_neg (fun hc => absurd hc.2 (by rw [hst]; decide))]
  rw [if_pos (Or.inr hst)]
  try dsimp only
  rw [initializeWorker_eq_le {w with state := WorkerStates.RESTARTING}
    (by rintro (h | h | h) <;> exact WorkerStates.noConfusion h) hconn hret]
  try dsimp only
  rw [hreq]

/-- Helper: the completion wrapper clears the request slot, the user callback
observes an empty slot, and it is invoked exactly once. -/
lemma callProcessEnd_props (w : Worker) (e : Option WErr) (r : Option String) :
    (callProcessEnd w e r).1._request = none ∧
    (∀ x ∈ (callProcessEnd w e r).2, Event.isProcessEnd x = true →
      x = Event.processEnd none e r) ∧
    processEnds (callProcessEnd w e r).2 = [Event.processEnd none e r] := by
  rw [callProcessEnd_eq]
  split
  · refine ⟨rfl, ?_, rfl⟩
    intro x hx hpe
    simp only [List.mem_cons, List.mem_singleton, List.not_mem_nil, or_false] at hx
    rcases hx with rfl | rfl
    · simp [Event.isProcessEnd] at hpe
    · rfl
  · refine ⟨rfl, ?_, rfl⟩
    intro x hx hpe
    simp only [List.mem_cons, List.mem_singleton, List.not_mem_nil, or_false] at hx
    rcases hx with rfl
    rfl

/-- C1 (amended): for every abnormal child exit (code non-zero, non-null, not
a self-inflicted signal code) while request R is pending, when the state is
not `ShuttingDown` and no out-of-memory condition is present (state not
`OutOfMemory`, no OOM signature buffered), the worker respawns and resends
exactly R to the new child once per respawn, incrementing the retry counter
once per spawn; once the counter exceeds the maximum, completion resolves
with a client-type (`WorkerError`) error, the request is cleared and R is not
resent.  Scenario: retry limit 3, four crashes with exit code 1 — exactly 4
spawn attempts, a single client-error completion, never success. -/
theorem c1_retry_respawn_amended :
    (∀ (w : Worker) (p : String) (code : Int),
      w._request = some (ChildMessage.call p) →
      code ≠ 0 → code ≠ SIGTERM_EXIT_CODE → code ≠ SIGKILL_EXIT_CODE →
      w.state ≠ WorkerStates.SHUTTING_DOWN →
      w.state ≠ WorkerStates.OUT_OF_MEMORY →
      oomSignature (String.join w._stderrBuffer) = false →
      w._child.connected = false →
      ((w._retries + 1 ≤ w.maxRetries →
        _onExit w (some code) =
          ({w with state := WorkerStates.OK, _stderrBuffer := [],
                   _child := ⟨w.nextChildId, true, false⟩,
                   nextChildId := w.nextChildId + 1,
                   _retries := w._retries + 1},
           [Event.spawn w.nextChildId,
            Event.sendToChild w.nextChildId
              (ChildMessage.init false w.workerPath w.setupArgs),
            Event.sendToChild w.nextChildId (ChildMessage.call p)])) ∧
       (w.maxRetries < w._retries + 1 →
        (_onExit w (some code)).1._retries = w._retries + 1 ∧
        (_onExit w (some code)).1._request = none ∧
        (_onExit w (some code)).2.filter Event.isSpawn = [Event.spawn w.nextChildId] ∧
        processEnds (_onExit w (some code)).2 =
          [Event.processEnd none (some (retryExceededErr (w._retries + 1))) none] ∧
        (∀ i, Event.sendToChild i (ChildMessage.call p) ∉ (_onExit w (some code)).2)))) ∧
    (c1r1.1._retries = 1 ∧ spawnCount c1r1.2 = 1 ∧
     sendCountOf c1r1.2 (ChildMessage.call "x") = 1 ∧ processEnds c1r1.2 = [] ∧
     c1r2.1._retries = 2 ∧ spawnCount c1r2.2 = 1 ∧
     sendCountOf c1r2.2 (ChildMessage.call "x") = 1 ∧ processEnds c1r2.2 = [] ∧
     c1r3.1._retries = 3 ∧ spawnCount c1r3.2 = 1 ∧
     sendCountOf c1r3.2 (ChildMessage.call "x") = 1 ∧ processEnds c1r3.2 = [] ∧
     c1r4.1._retries = 4 ∧ spawnCount c1r4.2 = 1 ∧
     sendCountOf c1r4.2 (ChildMessage.call "x") = 0 ∧
     c1r4.1._request = none ∧
     processEnds (c1r1.2 ++ c1r2.2 ++ c1r3.2 ++ c1r4.2) =
       [Event.processEnd none (some (retryExceededErr 4)) none]) := by
  constructor
  · intro w p code h1 h2 h3 h4 h5 h6 h7 h8
    have hdet : _detectOutOfMemoryCrash w = w := detect_of_no_sig w h7
    have hcond1 : ¬(some code ≠ some 0 ∧ w.state = WorkerStates.OUT_OF_MEMORY) :=
      fun hc => h6 hc.2
    have hcond2 : (some code ≠ some 0 ∧ some code ≠ none ∧
        some code ≠ some SIGTERM_EXIT_CODE ∧ some code ≠ some SIGKILL_EXIT_CODE ∧
        w.state ≠ WorkerStates.SHUTTING_DOWN) ∨ w.state = WorkerStates.RESTARTING :=
      Or.inl ⟨fun hh => h2 (Option.some.inj hh), fun hh => Option.noConfusion hh,
              fun hh => h3 (Option.some.inj hh), fun hh => h4 (Option.some.inj hh), h5⟩
    have hterm1 : ¬({w with state := WorkerStates.RESTARTING}.state =
          WorkerStates.OUT_OF_MEMORY ∨
        {w with state := WorkerStates.RESTARTING}.state = WorkerStates.SHUTTING_DOWN ∨
        {w with state := WorkerStates.RESTARTING}.state = WorkerStates.SHUT_DOWN) := by
      rintro (h | h | h) <;> exact WorkerStates.noConfusion h
    constructor
    · intro hle
      unfold _onExit
      rw [hdet]
      try dsimp only
      rw [if_neg hcond1, if_pos hcond2]
      try dsimp only
      rw [initializeWorker_eq_le {w with state := WorkerStates.RESTARTING} hterm1 h8 hle]
      try dsimp only
      rw [h1]
      rfl
    · intro hgt
      have hinit := initializeWorker_eq_gt {w with state := WorkerStates.RESTARTING}
        hterm1 h8 hgt
      dsimp only at hinit
      have key : _onExit w (some code) =
          initializeWorker {w with state := WorkerStates.RESTARTING} := by
        unfold _onExit
        rw [hdet]
        try dsimp only
        rw [if_neg hcond1, if_pos hcond2]
        try dsimp only
        by_cases hq : (qTruthy w._childIdleMemoryUsageLimit && w._request.isSome) = true
        · rw [if_pos hq] at hinit
          rw [hinit]
        · rw [if_neg hq] at hinit
          rw [hinit]
      by_cases hq : (qTruthy w._childIdleMemoryUsageLimit && w._request.isSome) = true
      · rw [if_pos hq] at hinit
        refine ⟨by rw [key, hinit], by rw [key, hinit],
          by rw [key, hinit]; rfl, by rw [key, hinit]; rfl, ?_⟩
        intro i hmem
        rw [key, hinit] at hmem
        simp at hmem
      · rw [if_neg hq] at hinit
        refine ⟨by rw [key, hinit], by rw [key, hinit],
          by rw [key, hinit]; rfl, by rw [key, hinit]; rfl, ?_⟩
        intro i hmem
        rw [key, hinit] at hmem
        simp at hmem
  · decide

/-- C1 counterexample to the claim as frozen: an abnormal exit (code 1) with
request `call "x"` pending and state `Ok` (not `ShuttingDown`), but with an
OOM signature in the buffered stderr — the worker does NOT respawn, does NOT
resend the request and does not touch the retry counter, contradicting the
claim's unconditional respawn-and-resend. -/
theorem c1_retry_respawn_counterexample :
    c1x._request = some (ChildMessage.call "x") ∧
    c1x.state = WorkerStates.OK ∧
    oomSignature (String.join c1x._stderrBuffer) = true ∧
    spawnCount (_onExit c1x (some 1)).2 = 0 ∧
    sendCountOf (_onExit c1x (some 1)).2 (ChildMessage.call "x") = 0 ∧
    (_onExit c1x (some 1)).1._retries = c1x._retries := by decide

/-- Witness for C1 at a concrete crash within the retry budget. -/
theorem c1_retry_respawn_witness :
    _onExit (markExited wBase) (some 1) =
      ({wBase with _child := ⟨1, true, false⟩, nextChildId := 2, _retries := 1},
       [Event.spawn 1,
        Event.sendToChild 1 (ChildMessage.init false "wp" []),
        Event.sendToChild 1 (ChildMessage.call "x")]) :=
  ((c1_retry_respawn_amended.1 (markExited wBase) "x" 1 rfl (by decide) (by decide)
      (by decide) (by decide) (by decide) (by decide) rfl).1 (by decide))

/-- C2 (amended): a restart triggered by the idle-memory limit performs
exactly one kill (SIGTERM plus a scheduled SIGKILL for the same handle) and
exactly one respawn, and — contrary to the frozen claim — the respawn
increments the Retry Counter by exactly one, because `initialize()`
increments it on every spawn. -/
theorem c2_memory_restart_amended (w : Worker) (L : ℚ) (U : Nat) (code : Option Int)
    (hchk : w._memoryUsageCheck = true)
    (hL : w._childIdleMemoryUsageLimit = some L) (hL0 : L ≠ 0)
    (hR : resolvedLimitZ L w.totalmem ≠ 0) (hU : U ≠ 0)
    (hgt : resolvedLimitZ L w.totalmem < (U : ℤ))
    (hmp : w._memoryUsagePromise = none)
    (hreq : w._request = none)
    (hret : w._retries < w.maxRetries) :
    _onMessage w (ParentMessage.memUsage U) =
      Except.ok (runMsg w (ParentMessage.memUsage U)) ∧
    (runMsg w (ParentMessage.memUsage U)).1.state = WorkerStates.RESTARTING ∧
    (runMsg w (ParentMessage.memUsage U)).2 =
      [Event.killSignal w._child.id Signal.SIGTERM,
       Event.scheduleForceKill w._child.id SIGKILL_DELAY] ∧
    (runMsg w (ParentMessage.memUsage U)).1._retries = w._retries ∧
    (_onExit (markExited (runMsg w (ParentMessage.memUsage U)).1) code).1.state =
      WorkerStates.OK ∧
    (_onExit (markExited (runMsg w (ParentMessage.memUsage U)).1) code).2 =
      [Event.spawn w.nextChildId,
       Event.sendToChild w.nextChildId
         (ChildMessage.init false w.workerPath w.setupArgs)] ∧
    (_onExit (markExited (runMsg w (ParentMessage.memUsage U)).1) code).1._retries =
      w._retries + 1 := by
  have hmsg : _onMessage w (ParentMessage.memUsage U) =
      Except.ok ({w with
          _childIdleMemoryUsage := some U,
          _memoryUsageCheck := false,
          state := WorkerStates.RESTARTING,
          _child := {w._child with killed := true}},
        [Event.killSignal w._child.id Signal.SIGTERM,
         Event.scheduleForceKill w._child.id SIGKILL_DELAY]) := by
    unfold _onMessage
    try dsimp only
    rw [hmp]
    try dsimp only
    rw [performRestart_restarts
      {w with _memoryUsagePromise := none, _childIdleMemoryUsage := some U} L U hchk hL
      hL0 rfl hR hU hgt]
    rfl
  have hrun : runMsg w (ParentMessage.memUsage U) =
      ({w with
          _childIdleMemoryUsage := some U,
          _memoryUsageCheck := false,
          state := WorkerStates.RESTARTING,
          _child := {w._child with killed := true}},
        [Event.killSignal w._child.id Signal.SIGTERM,
         Event.scheduleForceKill w._child.id SIGKILL_DELAY]) := by
    unfold runMsg runOk
    rw [hmsg]
  have hst : (markExited (runMsg w (ParentMessage.memUsage U)).1).state =
      WorkerStates.RESTARTING := by rw [hrun]; rfl
  have hconn2 : (markExited (runMsg w (ParentMessage.memUsage U)).1)._child.connected =
      false := rfl
  have hret2 : (markExited (runMsg w (ParentMessage.memUsage U)).1)._retries + 1 ≤
      (markExited (runMsg w (ParentMessage.memUsage U)).1).maxRetries := by
    rw [hrun]; exact hret
  have hreq2 : (markExited (runMsg w (ParentMessage.memUsage U)).1)._request = none := by
    rw [hrun]; exact hreq
  have hexit := onExit_restarting (markExited (runMsg w (ParentMessage.memUsage U)).1)
    code hst hconn2 hret2 hreq2
  exact ⟨by rw [hmsg, hrun], by rw [hrun]; try rfl, by rw [hrun]; try rfl,
    by rw [hrun]; try rfl, by rw [hexit]; try rfl, by rw [hexit, hrun]; try rfl,
    by rw [hexit, hrun]; try rfl⟩

/-- C2 counterexample to the claim as frozen: a concrete memory-limit restart
cycle (limit 1000 bytes, report 5000 bytes) whose respawn increments the
Retry Counter from 0 to 1 — the claim asserts the counter is not incremented
by that cycle. -/
theorem c2_memory_restart_counterexample :
    c2run.1.state = WorkerStates.RESTARTING ∧
    killSigCount c2run.2 Signal.SIGTERM = 1 ∧
    spawnCount c2exit.2 = 1 ∧
    wC2._retries = 0 ∧
    c2exit.1._retries = 1 ∧
    c2exit.1._retries ≠ wC2._retries := by decide

/-- Witness for C2 at the concrete cycle. -/
theorem c2_memory_restart_witness :
    _onMessage wC2 (ParentMessage.memUsage 5000) = Except.ok c2run ∧
    c2run.1.state = WorkerStates.RESTARTING ∧
    c2run.2 = [Event.killSignal wC2._child.id Signal.SIGTERM,
               Event.scheduleForceKill wC2._child.id SIGKILL_DELAY] ∧
    c2run.1._retries = wC2._retries ∧
    c2exit.1.state = WorkerStates.OK ∧
    c2exit.2 = [Event.spawn wC2.nextChildId,
                Event.sendToChild wC2.nextChildId
                  (ChildMessage.init false wC2.workerPath wC2.setupArgs)] ∧
    c2exit.1._retries = wC2._retries + 1 :=
  c2_memory_restart_amended wC2 1000 5000 (some 143) rfl rfl (by decide) (by decide)
    (by decide) (by decide) rfl rfl (by decide)

/-- C3 (amended): when the buffered error output holds a recognized OOM
signature at exit-handler time, the exit code is non-zero and the state is
`Starting`, `Ok` or already `OutOfMemory` (the states the detector can act
from), then the worker transitions to `OutOfMemory`, the completion callback
is invoked exactly once with the explicit out-of-memory error, the worker
shuts down finally (no spawn, request slot cleared) and `initialize()` is a
no-op on the resulting worker. -/
theorem c3_oom_exit_amended (w : Worker) (code : Option Int)
    (hsig : oomSignature (String.join w._stderrBuffer) = true)
    (hstate : w.state = WorkerStates.OK ∨ w.state = WorkerStates.STARTING ∨
              w.state = WorkerStates.OUT_OF_MEMORY)
    (hcode : code ≠ some 0)
    (hconn : w._child.connected = false) :
    (_detectOutOfMemoryCrash w).state = WorkerStates.OUT_OF_MEMORY ∧
    (_onExit w code).2 =
      [Event.processEnd none
        (some ⟨"Error", "Jest worker ran out of memory and crashed", syntheticStack⟩)
        none] ∧
    (_onExit w code).1.state = WorkerStates.SHUT_DOWN ∧
    (_onExit w code).1._request = none ∧
    initializeWorker (_onExit w code).1 = ((_onExit w code).1, []) := by
  have hdet : _detectOutOfMemoryCrash w = {w with state := WorkerStates.OUT_OF_MEMORY} := by
    unfold _detectOutOfMemoryCrash
    rw [if_pos hsig]
    rcases hstate with h | h | h
    · rw [if_pos (Or.inl h)]
    · rw [if_pos (Or.inr h)]
    · rw [if_neg (by rintro (hc | hc) <;> (rw [h] at hc; exact WorkerStates.noConfusion hc))]
      rw [← h]
  have key : _onExit w code =
      ({w with state := WorkerStates.SHUT_DOWN, _request := none},
       [Event.processEnd none
         (some ⟨"Error", "Jest worker ran out of memory and crashed", syntheticStack⟩)
         none]) := by
    unfold _onExit
    rw [hdet]
    try dsimp only
    rw [if_pos ⟨hcode, rfl⟩]
    rw [callProcessEnd_eq]
    simp only [hconn, Bool.and_false, Bool.false_and, Bool.false_eq_true, if_false]
    rfl
  refine ⟨by rw [hdet], by rw [key], by rw [key], by rw [key], ?_⟩
  rw [key]
  unfold initializeWorker
  rw [if_pos (Or.inr (Or.inr rfl))]

/-- C3 counterexample to the claim as frozen: an exit with an OOM signature
buffered but the worker in the `Restarting` state (for example after a
memory-limit restart) — the exit handler respawns the worker, no
`OutOfMemory` transition happens, the pending request is resent instead of
failed, contradicting the claim's unconditional OOM retirement. -/
theorem c3_oom_exit_counterexample :
    oomSignature (String.join c3x._stderrBuffer) = true ∧
    spawnCount (crashStep c3x 1).2 = 1 ∧
    (crashStep c3x 1).1.state = WorkerStates.OK ∧
    processEnds (crashStep c3x 1).2 = [] ∧
    (crashStep c3x 1).1._request = some (ChildMessage.call "x") := by decide

/-- Witness for C3 at a concrete OOM crash. -/
theorem c3_oom_exit_witness :
    (_detectOutOfMemoryCrash c3w).state = WorkerStates.OUT_OF_MEMORY ∧
    (_onExit c3w (some 1)).2 =
      [Event.processEnd none
        (some ⟨"Error", "Jest worker ran out of memory and crashed", syntheticStack⟩)
        none] ∧
    (_onExit c3w (some 1)).1.state = WorkerStates.SHUT_DOWN ∧
    (_onExit c3w (some 1)).1._request = none ∧
    initializeWorker (_onExit c3w (some 1)).1 = ((_onExit c3w (some 1)).1, []) :=
  c3_oom_exit_amended c3w (some 1) (by decide) (Or.inl rfl) (by decide) rfl

/-- C4 (amended): with a check requested, a configured (truthy) limit L and a
reported usage U, the resolved limit is floor(totalmem × L) for L in (0,1]
and floor(L) otherwise, and a restart (state `Restarting`, child killed) is
triggered iff the resolved limit is non-zero, U is non-zero and U strictly
exceeds the resolved limit — the zero cases are excluded by the source's
JavaScript truthiness guards.  Scenario: L = 1/2, total memory 10⁹: usage
6·10⁸ restarts, usage 4·10⁸ does not. -/
theorem c4_memory_limit_amended :
    (∀ (w : Worker) (L : ℚ) (U : Nat),
      w._memoryUsageCheck = true →
      w._childIdleMemoryUsageLimit = some L → L ≠ 0 →
      w._childIdleMemoryUsage = some U →
      w.state = WorkerStates.OK →
      (((_performRestartIfRequired w).1.state = WorkerStates.RESTARTING ∧
        killSigCount (_performRestartIfRequired w).2 Signal.SIGTERM = 1) ↔
        (resolvedLimitZ L w.totalmem ≠ 0 ∧ U ≠ 0 ∧
         resolvedLimitZ L w.totalmem < (U : ℤ)))) ∧
    ((_performRestartIfRequired (wMem (1/2) 1000000000 600000000)).1.state =
       WorkerStates.RESTARTING ∧
     (_performRestartIfRequired (wMem (1/2) 1000000000 400000000)).1.state =
       WorkerStates.OK ∧
     (_performRestartIfRequired (wMem (1/2) 1000000000 400000000)).2 = [] ∧
     resolvedLimitZ (1/2) 1000000000 = 500000000) := by
  constructor
  · intro w L U hchk hL hL0 hU2 hOK
    rw [performRestart_cases w L U hchk hL hL0 hU2]
    by_cases h : resolvedLimitZ L w.totalmem ≠ 0 ∧ U ≠ 0 ∧
        resolvedLimitZ L w.totalmem < (U : ℤ)
    · rw [if_pos h]
      exact ⟨fun _ => h, fun _ => ⟨rfl, rfl⟩⟩
    · rw [if_neg h]
      constructor
      · intro hc
        exfalso
        have hs := hc.1
        dsimp only at hs
        rw [hOK] at hs
        exact WorkerStates.noConfusion hs
      · intro hrhs
        exact absurd hrhs h
  · have hres : resolvedLimitZ (1/2) (1000000000 : Nat) = 500000000 := by
      unfold resolvedLimitZ
      rw [if_pos (by norm_num)]
      rw [show ((1000000000 : ℕ) : ℚ) * (1/2) = ((500000000 : ℤ) : ℚ) by norm_num]
      exact Int.floor_intCast _
    have hguardT : resolvedLimitZ (1/2) (wMem (1/2) 1000000000 600000000).totalmem ≠ 0 ∧
        (600000000 : ℕ) ≠ 0 ∧
        resolvedLimitZ (1/2) (wMem (1/2) 1000000000 600000000).totalmem <
          ((600000000 : ℕ) : ℤ) := by
      rw [show (wMem (1/2) 1000000000 600000000).totalmem = 1000000000 from rfl, hres]
      norm_num
    have hguardF : ¬(resolvedLimitZ (1/2) (wMem (1/2) 1000000000 400000000).totalmem ≠ 0 ∧
        (400000000 : ℕ) ≠ 0 ∧
        resolvedLimitZ (1/2) (wMem (1/2) 1000000000 400000000).totalmem <
          ((400000000 : ℕ) : ℤ)) := by
      rw [show (wMem (1/2) 1000000000 400000000).totalmem = 1000000000 from rfl, hres]
      norm_num
    refine ⟨?_, ?_, ?_, hres⟩
    · rw [performRestart_cases (wMem (1/2) 1000000000 600000000) (1/2) 600000000 rfl rfl
        (by norm_num) rfl, if_pos hguardT]
    · rw [performRestart_cases (wMem (1/2) 1000000000 400000000) (1/2) 400000000 rfl rfl
        (by norm_num) rfl, if_neg hguardF]
      try rfl
    · rw [performRestart_cases (wMem (1/2) 1000000000 400000000) (1/2) 400000000 rfl rfl
        (by norm_num) rfl, if_neg hguardF]

/-- C4 counterexample to the claim as frozen: limit L = 1/2 of a total memory
of 1 byte resolves to 0; a reported usage of 5 bytes strictly exceeds it, yet
no restart is triggered because the resolved limit 0 is falsy in the source's
guard — the claimed "restart iff U > resolved limit" fails here. -/
theorem c4_memory_limit_counterexample :
    resolvedLimitZ (1/2) (wMem (1/2) 1 5).totalmem = 0 ∧
    resolvedLimitZ (1/2) (wMem (1/2) 1 5).totalmem < ((5 : ℕ) : ℤ) ∧
    (wMem (1/2) 1 5)._childIdleMemoryUsage = some 5 ∧
    (wMem (1/2) 1 5)._memoryUsageCheck = true ∧
    (_performRestartIfRequired (wMem (1/2) 1 5)).1.state = WorkerStates.OK ∧
    (_performRestartIfRequired (wMem (1/2) 1 5)).2 = [] := by
  have hres : resolvedLimitZ (1/2) (1 : Nat) = 0 := by
    unfold resolvedLimitZ
    rw [if_pos (by norm_num)]
    rw [show ((1 : ℕ) : ℚ) * (1/2) = (1/2 : ℚ) by norm_num]
    rw [Int.floor_eq_iff]
    norm_num
  have hguard : ¬(resolvedLimitZ (1/2) (wMem (1/2) 1 5).totalmem ≠ 0 ∧
      (5 : ℕ) ≠ 0 ∧
      resolvedLimitZ (1/2) (wMem (1/2) 1 5).totalmem < ((5 : ℕ) : ℤ)) := by
    rw [show (wMem (1/2) 1 5).totalmem = 1 from rfl, hres]
    norm_num
  refine ⟨?_, ?_, rfl, rfl, ?_, ?_⟩
  · rw [show (wMem (1/2) 1 5).totalmem = 1 from rfl]
    exact hres
  · rw [show (wMem (1/2) 1 5).totalmem = 1 from rfl, hres]
    norm_num
  · rw [performRestart_cases (wMem (1/2) 1 5) (1/2) 5 rfl rfl (by norm_num) rfl,
      if_neg hguard]
    try rfl
  · rw [performRestart_cases (wMem (1/2) 1 5) (1/2) 5 rfl rfl (by norm_num) rfl,
      if_neg hguard]

/-- Witness for C4's general part at the spec scenario numbers. -/
theorem c4_memory_limit_witness :
    ((_performRestartIfRequired (wMem (1/2) 1000000000 600000000)).1.state =
        WorkerStates.RESTARTING ∧
      killSigCount (_performRestartIfRequired (wMem (1/2) 1000000000 600000000)).2
        Signal.SIGTERM = 1) ↔
      (resolvedLimitZ (1/2) (wMem (1/2) 1000000000 600000000).totalmem ≠ 0 ∧
       (600000000 : ℕ) ≠ 0 ∧
       resolvedLimitZ (1/2) (wMem (1/2) 1000000000 600000000).totalmem <
         ((600000000 : ℕ) : ℤ)) :=
  c4_memory_limit_amended.1 (wMem (1/2) 1000000000 600000000) (1/2) 600000000
    rfl rfl (by norm_num) rfl rfl

/-- C5: for every terminal response (success, client error or setup error)
handled while a request is pending, the pending-request slot is cleared to
empty strictly before the completion callback is invoked: the handler
succeeds, the resulting slot is empty, every completion-callback event
records an empty slot at invocation time, and the callback runs exactly
once. -/
theorem c5_request_cleared_before_callback (w : Worker) (r : ChildMessage)
    (resp : ParentMessage) (hreq : w._request = some r)
    (hterm : (match resp with
      | ParentMessage.ok _ => True
      | ParentMessage.clientError _ _ _ _ => True
      | ParentMessage.setupError _ _ _ => True
      | _ => False)) :
    ∃ w' evs, _onMessage w resp = Except.ok (w', evs) ∧
      w'._request = none ∧
      (∀ x ∈ evs, Event.isProcessEnd x = true →
        ∃ err res, x = Event.processEnd none err res) ∧
      (processEnds evs).length = 1 := by
  cases resp with
  | ok result =>
    exact ⟨(callProcessEnd w none (some result)).1,
      (callProcessEnd w none (some result)).2, rfl,
      (callProcessEnd_props w none (some result)).1,
      fun x hx hpe =>
        ⟨none, some result, (callProcessEnd_props w none (some result)).2.1 x hx hpe⟩,
      by rw [(callProcessEnd_props w none (some result)).2.2]; rfl⟩
  | clientError name message stack extra =>
    cases extra with
    | none =>
      exact ⟨(callProcessEnd w none none).1, (callProcessEnd w none none).2, rfl,
        (callProcessEnd_props w none none).1,
        fun x hx hpe => ⟨none, none, (callProcessEnd_props w none none).2.1 x hx hpe⟩,
        by rw [(callProcessEnd_props w none none).2.2]; rfl⟩
    | some t =>
      exact ⟨(callProcessEnd w (some ⟨t.getD name, message, stack⟩) none).1,
        (callProcessEnd w (some ⟨t.getD name, message, stack⟩) none).2, rfl,
        (callProcessEnd_props w (some ⟨t.getD name, message, stack⟩) none).1,
        fun x hx hpe => ⟨some ⟨t.getD name, message, stack⟩, none,
          (callProcessEnd_props w (some ⟨t.getD name, message, stack⟩) none).2.1 x hx hpe⟩,
        by rw [(callProcessEnd_props w (some ⟨t.getD name, message, stack⟩) none).2.2]; rfl⟩
  | setupError typeName message stack =>
    exact ⟨(callProcessEnd w
        (some ⟨typeName, "Error when calling setup: " ++ message, stack⟩) none).1,
      (callProcessEnd w
        (some ⟨typeName, "Error when calling setup: " ++ message, stack⟩) none).2, rfl,
      (callProcessEnd_props w
        (some ⟨typeName, "Error when calling setup: " ++ message, stack⟩) none).1,
      fun x hx hpe => ⟨some ⟨typeName, "Error when calling setup: " ++ message, stack⟩,
        none,
        (callProcessEnd_props w
          (some ⟨typeName, "Error when calling setup: " ++ message, stack⟩) none).2.1
          x hx hpe⟩,
      by rw [(callProcessEnd_props w
          (some ⟨typeName, "Error when calling setup: " ++ message, stack⟩) none).2.2]
         rfl⟩
  | custom payload => exact hterm.elim
  | memUsage bytes => exact hterm.elim
  | unknown tag => exact hterm.elim

/-- Witness for C5 at a concrete success reply. -/
theorem c5_request_cleared_before_callback_witness :
    ∃ w' evs, _onMessage wBase (ParentMessage.ok "done") = Except.ok (w', evs) ∧
      w'._request = none ∧
      (∀ x ∈ evs, Event.isProcessEnd x = true →
        ∃ err res, x = Event.processEnd none err res) ∧
      (processEnds evs).length = 1 :=
  c5_request_cleared_before_callback wBase (ChildMessage.call "x")
    (ParentMessage.ok "done") rfl trivial

end JestWorker
